import Mathlib

/-!
Verification of the docarray index-resolution layer (`SetItemMixin.__setitem__` and its
helpers in `docarray/array/mixins/setitem.py`) and of the storage backends for Redis
(`docarray/array/storage/redis/getsetdel.py`, `backend.py`) and Elastic
(`docarray/array/storage/elastic/seqlike.py`).

The Python code is shallowly embedded: documents are records, the heterogeneous index
expressions accepted by `__setitem__` form an inductive type `Ix` mirroring the runtime
type tests of the source (`isinstance` checks on `int`, `bool`, `str`, `slice`,
`Ellipsis`, `Sequence`, `tuple`, `np.ndarray`), and the mutation functions return either
the updated collection or a raised Python exception paired with the collection state at
the moment of the raise (Python loops are not transactional, so an exception can leave
earlier elements mutated).

Primitive operations that live outside the provided sources (the base getsetdel layer,
the in-memory backend, the facade getitem) are modelled from the specification and say
so in their doc comments.
-/

/-- A document record. The attribute surface is modelled from the spec: a document
carries a stable string identifier, a text payload, and the two designated array-like
attributes (`tensor` and `embedding`). -/
structure Document where
  id : String
  text : String
  tensor : Option (List Int)
  embedding : Option (List Int)
deriving DecidableEq, Repr

/-- Convenience constructor: a document with the given id and empty payload. -/
def mkDoc (i : String) : Document := ⟨i, "", none, none⟩

/-- A document with the given id and text. -/
def mkDocT (i t : String) : Document := ⟨i, t, none, none⟩

/-- Modelled from the spec: the `hasattr` surface of a document, used by the
paired-selector disambiguation. The valid attribute names are exactly the fields. -/
def Document.hasAttr (_d : Document) (a : String) : Bool :=
  a = "id" || a = "text" || a = "tensor" || a = "embedding"

/-- Values passed to `__setitem__`: a document, a Python string, an integer, `None`,
or a Python sequence (list/tuple) of values. -/
inductive Val where
  | doc (d : Document)
  | vstr (s : String)
  | vint (n : Int)
  | vnone
  | vlist (vs : List Val)
deriving Repr

/-- `isinstance(value, (list, tuple))` on a value. Strings are not list/tuple. -/
def Val.isListTuple : Val → Bool
  | .vlist _ => true
  | _ => false

/-- The broadcast test of `__setitem__` line 87:
`isinstance(value, str) or not isinstance(value, Sequence)`. Among the value forms of
this embedding the only non-string `Sequence` is `vlist`, so the test holds exactly for
non-`vlist` values (strings broadcast like scalars). -/
def broadcastGuard : Val → Bool
  | .vlist _ => false
  | _ => true

/-- Python iteration over a value (used by `zip`): lists/tuples yield their elements,
strings yield their characters as one-character strings; other values are not
iterable. -/
def Val.iterElems : Val → Option (List Val)
  | .vlist vs => some vs
  | .vstr s => some (s.toList.map (fun c => Val.vstr c.toString))
  | _ => none

/-- A list of integers out of a value, when the value is a list of integers. -/
def Val.asIntList : Val → Option (List Int)
  | .vlist vs => vs.mapM (fun x => match x with | .vint n => some n | _ => none)
  | _ => none

/-- Modelled from the spec: the attribute write surface `set_attr(doc, name, value)`.
Values of the wrong shape leave the attribute unchanged; type coercion is out of
scope of the core. -/
def Document.setAttr (d : Document) (name : String) (v : Val) : Document :=
  if name = "id" then match v with | .vstr s => { d with id := s } | _ => d
  else if name = "text" then match v with | .vstr s => { d with text := s } | _ => d
  else if name = "tensor" then { d with tensor := v.asIntList }
  else if name = "embedding" then { d with embedding := v.asIntList }
  else d

/-- Index expressions, one constructor per runtime shape that the resolver
discriminates: integer scalars, booleans, strings, slices, `Ellipsis`, lists,
tuples, numpy arrays (shape plus row-major flat data), floats (an unsupported scalar,
the numeric payload abbreviates the float value), and `None`. -/
inductive Ix where
  | pyint (n : Int)
  | pybool (b : Bool)
  | pystr (s : String)
  | pyslice (start stop step : Option Int)
  | ellipsis
  | pylist (xs : List Ix)
  | pytuple (xs : List Ix)
  | ndarray (shape : List Nat) (data : List Ix)
  | pyfloat (k : Int)
  | pynone
deriving Repr

/-- `typename(index)`, as used in the resolver error messages. -/
def Ix.typename : Ix → String
  | .pyint _ => "int"
  | .pybool _ => "bool"
  | .pystr _ => "str"
  | .pyslice _ _ _ => "slice"
  | .ellipsis => "ellipsis"
  | .pylist _ => "list"
  | .pytuple _ => "tuple"
  | .ndarray _ _ => "ndarray"
  | .pyfloat _ => "float"
  | .pynone => "NoneType"

/-- `isinstance(x, int)` in Python is true for `bool` as well; the integer value of a
boolean is 0 or 1. Returns the integer value when the isinstance test succeeds. -/
def Ix.asPyInt : Ix → Option Int
  | .pyint n => some n
  | .pybool b => some (if b then 1 else 0)
  | _ => none

/-- Python truthiness of an index element (used by `itertools.compress`). -/
def Ix.truthy : Ix → Bool
  | .pybool b => b
  | .pyint n => n ≠ 0
  | .pystr s => s ≠ ""
  | .pyfloat k => k ≠ 0
  | .pynone => false
  | .pyslice _ _ _ => true
  | .ellipsis => true
  | .pylist xs => !xs.isEmpty
  | .pytuple xs => !xs.isEmpty
  | .ndarray _ ds => !ds.isEmpty

/-- Python iteration over an index object: lists/tuples yield their elements and
strings yield their characters. Arrays iterate over sub-arrays in Python; that case is
never reached here (only already-checked list masks are iterated) and is left out. -/
def Ix.iterElems : Ix → Option (List Ix)
  | .pylist xs => some xs
  | .pytuple xs => some xs
  | .pystr s => some (s.toList.map (fun c => Ix.pystr c.toString))
  | _ => none

/-- The Python exceptions the embedded code can raise, each carrying its message
(`keyError` carries the missing key). -/
inductive PyErr where
  | indexError (msg : String)
  | typeError (msg : String)
  | valueError (msg : String)
  | keyError (key : String)
deriving DecidableEq, Repr

/-- `len()` on an index object: sequences and strings have a length, arrays have their
leading dimension, and scalars raise `TypeError`. -/
def pyLen : Ix → Except PyErr Nat
  | .pylist xs => .ok xs.length
  | .pytuple xs => .ok xs.length
  | .pystr s => .ok s.length
  | .ndarray shape _ =>
      match shape with
      | [] => .error (.typeError "len of unsized object")
      | d :: _ => .ok d
  | other => .error (.typeError ("object of type " ++ other.typename ++ " has no len"))

/-- The attribute-name list of `idx2`, when `idx2` is a `Sequence` all of whose
elements are strings (a string is itself a sequence of its one-character strings);
`none` when `idx2` is not such a sequence. -/
def Ix.attrNames : Ix → Option (List String)
  | .pystr s => some (s.toList.map (fun c => c.toString))
  | .pylist xs => xs.mapM (fun e => match e with | .pystr a => some a | _ => none)
  | .pytuple xs => xs.mapM (fun e => match e with | .pystr a => some a | _ => none)
  | _ => none

/-! ## The collection facade and the primitive operations

The collection state is the ordered list of documents held by the in-memory store.
The primitive get/set/delete operations of the base getsetdel layer and the facade
getitem are not part of the provided sources; they are modelled from the spec
(sections 4.1, 4.3 and 6) and marked as such. -/

/-- A raised Python exception carries the collection state at the moment of the raise:
per-element batch operations are not transactional, so earlier mutations survive. -/
abbrev Res := Except (PyErr × List Document) (List Document)

/-- Python list-offset resolution: negative offsets count from the end; the resolved
offset must fall inside the current length. -/
def resolveOffset (len : Nat) (n : Int) : Option Nat :=
  let k : Int := if n < 0 then n + len else n
  if 0 ≤ k ∧ k < len then some k.toNat else none

/-- `id in self`: membership of an identifier in the collection. -/
def containsId (da : List Document) (s : String) : Bool :=
  da.any (fun d => d.id = s)

/-- Modelled from the spec: `get_by_offset(k)` (section 6), raising `IndexError` when
the offset is out of range. -/
def getDocByOffset (da : List Document) (n : Int) : Except PyErr Document :=
  match resolveOffset da.length n with
  | some k =>
      match da.get? k with
      | some d => .ok d
      | none => .error (.indexError "index out of range")
  | none => .error (.indexError ("index " ++ toString n ++ " is out of range"))

/-- Modelled from the spec: `get_by_id(id)` (section 6), raising `KeyError` when the
identifier is absent. -/
def getDocById (da : List Document) (s : String) : Except PyErr Document :=
  match da.find? (fun d => d.id = s) with
  | some d => .ok d
  | none => .error (.keyError s)

/-- Modelled from the spec: singleton facade getitem — rule 1 (integer-like scalar,
booleans excluded) and rule 2 (identifier) of the classification table; every other
singleton index fails with `IndexError` naming the type (rule 9). -/
def getDoc (da : List Document) : Ix → Except PyErr Document
  | .pyint n => getDocByOffset da n
  | .pystr s => getDocById da s
  | other => .error (.indexError ("Unsupported index type " ++ other.typename))

/-- The offsets selected by a Python slice against a collection of length `len`,
following the CPython index-adjustment rules; a zero step raises `ValueError`. -/
def sliceIndices (start stop step : Option Int) (len : Nat) : Except PyErr (List Nat) :=
  let st := step.getD 1
  if st = 0 then .error (.valueError "slice step cannot be zero")
  else
    let n : Int := len
    if 0 < st then
      let lo := match start with
        | none => 0
        | some a => if a < 0 then max (a + n) 0 else min a n
      let hi := match stop with
        | none => n
        | some b => if b < 0 then max (b + n) 0 else min b n
      let cnt := if lo < hi then ((hi - lo + st - 1) / st).toNat else 0
      .ok ((List.range cnt).map (fun i => (lo + st * i).toNat))
    else
      let lo := match start with
        | none => n - 1
        | some a => if a < 0 then max (a + n) (-1) else min a (n - 1)
      let hi := match stop with
        | none => -1
        | some b => if b < 0 then max (b + n) (-1) else min b (n - 1)
      let cnt := if hi < lo then ((lo - hi + (-st) - 1) / (-st)).toNat else 0
      .ok ((List.range cnt).map (fun i => (lo + st * i).toNat))

/-- The sub-sequence of documents selected by a slice, in slice order. -/
def sliceSelect (da : List Document) (start stop step : Option Int) :
    Except PyErr (List Document) :=
  (sliceIndices start stop step da.length).map
    (fun ks => ks.filterMap (fun k => da.get? k))

/-- `itertools.compress(self, mask)`: the documents at truthy positions of the mask,
in order; iteration stops at the shorter of the two sequences. -/
def compress (da : List Document) (sel : List Ix) : List Document :=
  ((da.zip sel).filter (fun p => p.2.truthy)).map (fun p => p.1)

/-- Modelled from the spec: multi-selection facade getitem, following the same
classification table as the resolver (section 4.1): slices select their offset range,
`Ellipsis` selects the whole collection, a boolean-headed sequence is a mask (length
checked, section 4.2), an integer/string-headed sequence selects per element, a
singleton offset or identifier selects one document, and anything else fails with
`IndexError` (rule 9). -/
def getDocs (da : List Document) : Ix → Except PyErr (List Document)
  | .pyslice a b c => sliceSelect da a b c
  | .ellipsis => .ok da
  | .pyint n => (getDocByOffset da n).map (fun d => [d])
  | .pystr s => (getDocById da s).map (fun d => [d])
  | .pylist xs =>
      match xs with
      | [] => .error (.indexError "list index out of range")
      | hd :: _ =>
        match hd with
        | .pybool _ =>
            if xs.length ≠ da.length then
              .error (.indexError ("Boolean mask index is required to have the same length as "
                ++ toString da.length ++ ", but receiving " ++ toString xs.length))
            else .ok (compress da xs)
        | .pyint _ => xs.mapM (fun e => getDoc da e)
        | .pystr _ => xs.mapM (fun e => getDoc da e)
        | other => .error (.indexError ("Unsupported index type " ++ other.typename))
  | .pytuple xs =>
      match xs with
      | [] => .error (.indexError "tuple index out of range")
      | hd :: _ =>
        match hd with
        | .pybool _ =>
            if xs.length ≠ da.length then
              .error (.indexError ("Boolean mask index is required to have the same length as "
                ++ toString da.length ++ ", but receiving " ++ toString xs.length))
            else .ok (compress da xs)
        | .pyint _ => xs.mapM (fun e => getDoc da e)
        | .pystr _ => xs.mapM (fun e => getDoc da e)
        | other => .error (.indexError ("Unsupported index type " ++ other.typename))
  | other => .error (.indexError ("Unsupported index type " ++ other.typename))

/-- Modelled from the spec: `set_by_offset(k, doc)` (section 6) — replaces the payload
at the offset; the id may change. The assigned value must be a document. -/
def setDocByOffset (da : List Document) (n : Int) (v : Val) : Res :=
  match v with
  | .doc d =>
      match resolveOffset da.length n with
      | some k => .ok (da.set k d)
      | none => .error (.indexError ("index " ++ toString n ++ " is out of range"), da)
  | _ => .error (.typeError "expected a Document value", da)

/-- Modelled from the spec: `set_by_id(id, doc)` (section 6) — replaces the payload
stored under the identifier in place (so a changed `doc.id` removes the old
identifier), raising `KeyError` when the identifier is absent. -/
def setDocById (da : List Document) (s : String) (v : Val) : Res :=
  match v with
  | .doc d =>
      if containsId da s then
        .ok (da.map (fun x => if x.id = s then d else x))
      else .error (.keyError s, da)
  | _ => .error (.typeError "expected a Document value", da)

/-- Modelled from the spec: "set by value pairs" (section 4.1 rule 4) — each selected
document receives the corresponding value positionally; a length mismatch between the
selection and the value sequence fails with `ValueError` before any write. -/
def setDocValuePairs (da : List Document) (docs : List Document) (v : Val) : Res :=
  match v with
  | .vlist vs =>
      if docs.length ≠ vs.length then
        .error (.valueError ("the number of target documents " ++ toString docs.length
          ++ " does not match the number of values " ++ toString vs.length), da)
      else
        (docs.zip vs).foldl
          (fun r p => r.bind (fun s => setDocById s p.1.id p.2)) (.ok da)
  | _ => .error (.valueError "expected a sequence of documents as value", da)

/-- Modelled from the spec: rule 3 of the classification table — a slice is translated
to its concrete offset range and applied as a batch set over the selected documents. -/
def setDocsBySlice (da : List Document) (a b c : Option Int) (v : Val) : Res :=
  match sliceSelect da a b c with
  | .error e => .error (e, da)
  | .ok docs => setDocValuePairs da docs v

/-- Modelled from the spec: the external traversal collaborator of rule 2 resolves a
path expression to a flat sequence of documents; the documents of this embedding carry
no nested sub-collections, so every path resolves to the root sequence. -/
def traverseFlat (da : List Document) (_path : String) : List Document := da

/-- Modelled from the spec: rule 4 flattens the collection (including nested
sub-collections); without hierarchy the flattening is the collection itself. -/
def flattenDocs (da : List Document) : List Document := da

/-- Modelled from the spec: the single-attribute-by-id primitive of the attribute
projection layer (section 4.3). The key the resolver passes through may be an
identifier or an offset; it is resolved through the facade getitem, the attribute is
written on the fetched document, and the document is re-persisted in place (matched by
its identifier before the write). -/
def setDocAttrById (da : List Document) (key : Ix) (attr : String) (v : Val) : Res :=
  match getDoc da key with
  | .error e => .error (e, da)
  | .ok d =>
      let d2 := d.setAttr attr v
      .ok (da.map (fun x => if x.id = d.id then d2 else x))

/-! ## The attribute projection layer and the resolver helpers (setitem.py) -/

/-- embedding of `_set_by_mask` (setitem.py lines 144-151): `len(mask)` is compared
with the collection length — raising `IndexError` naming both lengths on a mismatch,
before any write — then the mask-compressed sub-sequence receives the value pairs.
`len()` of a non-sequence raises `TypeError`. -/
def setByMask (da : List Document) (mask : Ix) (v : Val) : Res :=
  match pyLen mask with
  | .error e => .error (e, da)
  | .ok n =>
      if n ≠ da.length then
        .error (.indexError ("Boolean mask index is required to have the same length as "
          ++ toString da.length ++ ", but receiving " ++ toString n), da)
      else
        match mask.iterElems with
        | some sel => setDocValuePairs da (compress da sel) v
        | none =>
            .error (.typeError ("argument of type " ++ mask.typename ++ " is not iterable"), da)

/-- The loop `for attr, _v in zip(idx2, value): self._set_doc_attr_by_id(idx1, attr, _v)`
of `_set_by_pair`: `zip` requires the value to be iterable, then one attribute write is
issued per position against the same primary key. -/
def setAttrsZipKey (da : List Document) (key : Ix) (attrs : List String) (v : Val) : Res :=
  match v.iterElems with
  | none => .error (.typeError ("zip argument of type " ++ "value" ++ " is not iterable"), da)
  | some vs =>
      (attrs.zip vs).foldl
        (fun r p => r.bind (fun s => setDocAttrById s key p.1 p.2)) (.ok da)

/-- `self._set_doc_attr_by_id(_d.id, _a, _vv)` where `_a` comes from the attribute
sequence and may fail to be a string (`setattr` then raises `TypeError`). -/
def setDocAttrNamed (da : List Document) (id : String) (a : Ix) (v : Val) : Res :=
  match a with
  | .pystr s => setDocAttrById da (.pystr id) s v
  | _ => .error (.typeError "attribute name must be a string", da)

/-- Modelled from the spec: the batch array-column write
`set_array_column(docs, values, which)` behind `_docs.tensors = _v` /
`_docs.embeddings = _v` — the value sequence is positionally assigned across the
selected sub-sequence. -/
def applyColumn (docs : List Document) (col : String) (vv : Val) : List Document :=
  match vv.iterElems with
  | some vs => (docs.zip vs).map (fun p => p.1.setAttr col p.2) ++ docs.drop vs.length
  | none => docs

/-- `for _d in _docs: self._set_doc_by_id(_d.id, _d)` — every selected document is
re-persisted by its id after a column write. -/
def persistDocs (da : List Document) : List Document → Res
  | [] => .ok da
  | d :: ds =>
      match setDocById da d.id (.doc d) with
      | .error e => .error e
      | .ok da2 => persistDocs da2 ds

/-- The updated local view of a selected document after an attribute write (document
objects are shared by reference in the source, so the selected sub-sequence observes
the write). -/
def updatedDoc (d : Document) (a : Ix) (vv : Val) : Document :=
  match a with
  | .pystr s => d.setAttr s vv
  | _ => d

/-- The per-document loop writing the same value on every selected document
(`for _d in _docs: self._set_doc_attr_by_id(_d.id, _a, _v)`); returns the collection
and the updated selected sub-sequence. -/
def setAttrEachSame (da : List Document) (a : Ix) (vv : Val) :
    List Document → Except (PyErr × List Document) (List Document × List Document)
  | [] => .ok (da, [])
  | d :: ds =>
      match setDocAttrNamed da d.id a vv with
      | .error e => .error e
      | .ok da2 =>
          match setAttrEachSame da2 a vv ds with
          | .error e => .error e
          | .ok (daF, dsF) => .ok (daF, updatedDoc d a vv :: dsF)

/-- The per-document loop zipping the selected documents with a value sequence
(`for _d, _vv in zip(_docs, _v): self._set_doc_attr_by_id(_d.id, _a, _vv)`). -/
def setAttrEachZip (da : List Document) (a : Ix) :
    List (Document × Val) → Except (PyErr × List Document) (List Document × List Document)
  | [] => .ok (da, [])
  | (d, vv) :: ps =>
      match setDocAttrNamed da d.id a vv with
      | .error e => .error e
      | .ok da2 =>
          match setAttrEachZip da2 a ps with
          | .error e => .error e
          | .ok (daF, dsF) => .ok (daF, updatedDoc d a vv :: dsF)

/-- The `for _a, _v in zip(attributes, value)` loop of `_set_docs_attributes`
(setitem.py lines 173-187): the two designated array-like attributes are written as a
whole column and every selected document re-persisted by id; any other attribute is
written per document — the same value for every document when the value is not a
list/tuple, positionally zipped otherwise. The updated selected sub-sequence is
threaded into the following iterations. -/
def setAttrsLoop (da : List Document) (docs : List Document) :
    List (Ix × Val) → Res
  | [] => .ok da
  | (a, vv) :: rest =>
      match a with
      | .pystr "tensor" =>
          let docs2 := applyColumn docs "tensor" vv
          (match persistDocs da docs2 with
           | .error e => .error e
           | .ok da2 => setAttrsLoop da2 docs2 rest)
      | .pystr "embedding" =>
          let docs2 := applyColumn docs "embedding" vv
          (match persistDocs da docs2 with
           | .error e => .error e
           | .ok da2 => setAttrsLoop da2 docs2 rest)
      | _ =>
          match vv with
          | .vlist vs =>
              (match setAttrEachZip da a (docs.zip vs) with
               | .error e => .error e
               | .ok (da2, updated) =>
                   setAttrsLoop da2 (updated ++ docs.drop vs.length) rest)
          | _ =>
              (match setAttrEachSame da a vv docs with
               | .error e => .error e
               | .ok (da2, updated) => setAttrsLoop da2 updated rest)

/-- embedding of `_set_docs_attributes` (setitem.py lines 153-187): a scalar attribute
name is wrapped into a one-element tuple; a flat list/tuple value (one with no nested
list/tuple) is wrapped into `[value]`, as is a non-sequence value; the primary selector
is resolved through the facade getitem; an empty selection returns immediately with no
write; otherwise the attribute/value pairs are applied. -/
def setDocsAttributes (da : List Document) (index attrsIx : Ix) (v : Val) : Res :=
  let attrsSeq : Ix := match attrsIx with
    | .pystr s => .pytuple [.pystr s]
    | other => other
  let vnorm : List Val := match v with
    | .vlist vs => if vs.all (fun el => !el.isListTuple) then [.vlist vs] else vs
    | other => [other]
  match getDocs da index with
  | .error e => .error (e, da)
  | .ok [] => .ok da
  | .ok docs =>
      match attrsSeq.iterElems with
      | none =>
          .error (.typeError ("zip argument of type " ++ attrsSeq.typename
            ++ " is not iterable"), da)
      | some attrElems => setAttrsLoop da docs (attrElems.zip vnorm)

/-- The integer-first branch of `_set_by_pair` (setitem.py lines 123-139): an integer
second component selects two documents by offset and sets both from the value; a
string second component is checked with `hasattr` against the document at the first
offset (an attribute write when valid, otherwise its characters are tried as a
sequence of attribute names); a sequence second component must consist of valid
attribute names; anything else raises `ValueError`. Note `isinstance(x, int)` holds
for booleans, which enter through `Ix.asPyInt`. -/
def setByPairInt (da : List Document) (n1 : Int) (idx2 : Ix) (v : Val) : Res :=
  match idx2.asPyInt with
  | some n2 =>
      (match getDocByOffset da n1 with
       | .error e => .error (e, da)
       | .ok d1 =>
           match getDocByOffset da n2 with
           | .error e => .error (e, da)
           | .ok d2 => setDocValuePairs da [d1, d2] v)
  | none =>
    match idx2 with
    | .pystr s2 =>
        (match getDocByOffset da n1 with
         | .error e => .error (e, da)
         | .ok d1 =>
             if d1.hasAttr s2 then setDocAttrById da (.pyint n1) s2 v
             else
               let attrs := s2.toList.map (fun c => c.toString)
               if attrs.all (fun a => d1.hasAttr a) then
                 setAttrsZipKey da (.pyint n1) attrs v
               else
                 .error (.valueError (s2 ++ " must be an attribute or list of attributes"), da))
    | _ =>
        match idx2.attrNames with
        | some attrs =>
            if attrs.isEmpty then setAttrsZipKey da (.pyint n1) attrs v
            else
              (match getDocByOffset da n1 with
               | .error e => .error (e, da)
               | .ok d1 =>
                   if attrs.all (fun a => d1.hasAttr a) then
                     setAttrsZipKey da (.pyint n1) attrs v
                   else
                     .error (.valueError (idx2.typename
                       ++ " must be an attribute or list of attributes"), da))
        | none =>
            .error (.valueError (idx2.typename
              ++ " must be an attribute or list of attributes"), da)

/-- embedding of `_set_by_pair` (setitem.py lines 105-142). A string first component
tries, in order: known-id second component (dual-id selection), attribute name,
sequence of attribute names, else `ValueError`. An integer (or boolean) first
component has no known-id check: see `setByPairInt`. A slice/sequence/Ellipsis first
component goes to the attribute projection layer. Any other first component falls
through silently — the source has no final else branch. -/
def setByPair (da : List Document) (idx1 idx2 : Ix) (v : Val) : Res :=
  match idx1 with
  | .pystr s1 =>
      (match idx2 with
       | .pystr s2 =>
           if containsId da s2 then
             match getDocById da s1 with
             | .error e => .error (e, da)
             | .ok d1 =>
                 match getDocById da s2 with
                 | .error e => .error (e, da)
                 | .ok d2 => setDocValuePairs da [d1, d2] v
           else
             match getDocById da s1 with
             | .error e => .error (e, da)
             | .ok d1 =>
                 if d1.hasAttr s2 then setDocAttrById da (.pystr s1) s2 v
                 else
                   let attrs := s2.toList.map (fun c => c.toString)
                   if attrs.all (fun a => d1.hasAttr a) then
                     setAttrsZipKey da (.pystr s1) attrs v
                   else
                     .error (.valueError (s2 ++ " is neither a valid id nor attribute name"), da)
       | _ =>
           match idx2.attrNames with
           | some attrs =>
               if attrs.isEmpty then setAttrsZipKey da (.pystr s1) attrs v
               else
                 (match getDocById da s1 with
                  | .error e => .error (e, da)
                  | .ok d1 =>
                      if attrs.all (fun a => d1.hasAttr a) then
                        setAttrsZipKey da (.pystr s1) attrs v
                      else
                        .error (.valueError (idx2.typename
                          ++ " is neither a valid id nor attribute name"), da))
           | none =>
               .error (.valueError (idx2.typename
                 ++ " is neither a valid id nor attribute name"), da))
  | .pyint n1 => setByPairInt da n1 idx2 v
  | .pybool b => setByPairInt da (if b then 1 else 0) idx2 v
  | .pyslice _ _ _ => setDocsAttributes da idx1 idx2 v
  | .pylist _ => setDocsAttributes da idx1 idx2 v
  | .pytuple _ => setDocsAttributes da idx1 idx2 v
  | .ellipsis => setDocsAttributes da idx1 idx2 v
  | .ndarray _ _ => .ok da
  | .pyfloat _ => .ok da
  | .pynone => .ok da

/-! ## The index resolver: `__setitem__` -/

theorem list_sizeOf_pos {α : Type} [SizeOf α] (l : List α) : 0 < sizeOf l := by
  cases l <;> simp_arith

mutual

/-- embedding of `SetItemMixin.__setitem__` (setitem.py lines 61-103), one arm per
runtime shape, in the precedence order of the source `elif` chain: integer scalars
(booleans excluded) set by offset; strings set by id, or by traversal when they start
with the `@` sigil; slices set their offset range; `Ellipsis` sets the flattened
collection by value pairs; a 2-tuple goes to `_set_by_pair`; other sequences go to the
shared sequence body; numpy arrays are squeezed — one remaining dimension recurses on
the equivalent list, anything else raises `IndexError` naming the dimension count; all
remaining shapes (booleans, floats, `None`) raise `IndexError` naming the type. -/
def setitem (da : List Document) (index : Ix) (v : Val) : Res :=
  match index with
  | .pyint n => setDocByOffset da n v
  | .pystr s =>
      if s.startsWith "@" then setDocValuePairs da (traverseFlat da (s.drop 1)) v
      else setDocById da s v
  | .pyslice a b c => setDocsBySlice da a b c v
  | .ellipsis => setDocValuePairs da (flattenDocs da) v
  | .pytuple xs =>
      (match xs with
       | [i1, i2] => setByPair da i1 i2 v
       | other => setitemSeq da other v)
  | .pylist xs => setitemSeq da xs v
  | .ndarray shape data =>
      let sq := shape.filter (fun d => d ≠ 1)
      if sq.length = 1 then setitem da (.pylist data) v
      else
        .error (.indexError ("When using np.ndarray as index its ndim must be 1 but receiving ndim "
          ++ toString sq.length), da)
  | other => .error (.indexError ("Unsupported index type " ++ other.typename), da)
termination_by (sizeOf index, 2)
decreasing_by
all_goals first
  | decreasing_tactic
  | (simp_wf
     apply Prod.Lex.left
     have h := list_sizeOf_pos shape
     omega)

/-- The sequence body of `__setitem__` (setitem.py lines 78-92), shared by lists and
non-pair tuples: `index[0]` raises on an empty sequence; a boolean first element
dispatches to `_set_by_mask` — the source passes `index[0]`, the single boolean,
rather than the mask itself; an integer or string first element assigns per element,
broadcasting a non-sequence (or string) value and zipping a sequence value; any other
first element matches no branch and the call returns with the collection unchanged. -/
def setitemSeq (da : List Document) (xs : List Ix) (v : Val) : Res :=
  match xs with
  | [] => .error (.indexError "list index out of range", da)
  | .pybool b :: _ => setByMask da (.pybool b) v
  | .pyint n :: tl =>
      (match v with
       | .vlist vs => setZip da (.pyint n :: tl) vs
       | other => setEachB da (.pyint n :: tl) other)
  | .pystr s :: tl =>
      (match v with
       | .vlist vs => setZip da (.pystr s :: tl) vs
       | other => setEachB da (.pystr s :: tl) other)
  | _ :: _ => .ok da
termination_by (sizeOf xs, 1)

/-- `for si in index: self[si] = value` — the same value assigned through the resolver
for every element, stopping at the first raised exception. -/
def setEachB (da : List Document) (xs : List Ix) (v : Val) : Res :=
  match xs with
  | [] => .ok da
  | x :: rest =>
      match setitem da x v with
      | .error e => .error e
      | .ok da2 => setEachB da2 rest v
termination_by (sizeOf xs, 0)

/-- `for si, _val in zip(index, value): self[si] = _val` — element-wise pairs through
the resolver, stopping at the shorter sequence or the first raised exception. -/
def setZip (da : List Document) (xs : List Ix) (vs : List Val) : Res :=
  match xs, vs with
  | [], _ => .ok da
  | _ :: _, [] => .ok da
  | x :: rest, v1 :: vrest =>
      match setitem da x v1 with
      | .error e => .error e
      | .ok da2 => setZip da2 rest vrest
termination_by (sizeOf xs, 0)

end

/-! ## The Elastic backend: `extend` and the Offset2ID table -/

/-- The elastic collection state: the remote index (id-keyed documents) and the
Offset2ID table. -/
structure ElasticState where
  index : List (String × Document)
  offset2ids : List String
deriving DecidableEq, Repr

/-- An Elasticsearch bulk `index` operation line: an upsert by `_id` — an existing
entry with the same id is overwritten in place, a new id is appended. -/
def upsertES (m : List (String × Document)) (k : String) (d : Document) :
    List (String × Document) :=
  if m.any (fun p => p.1 = k) then m.map (fun p => if p.1 = k then (k, d) else p)
  else m ++ [(k, d)]

/-- Modelled abstractly: `_map_embedding` (elastic/backend.py lines 188-200)
normalizes the embedding — random fill for a missing value, squeeze, epsilon shift —
floating-point and randomness are outside this embedding. The transformation never
touches the document identifier, which is all the theorems below rely on. -/
def elasticMapEmbedding (nDim : Nat) : Option (List Int) → List Int
  | none => List.replicate nDim 0
  | some e => e

/-- embedding of `SequenceLikeMixin.extend` (elastic/seqlike.py lines 65-87): for
each value in order, the embedding is normalized, a bulk index request line is built,
and the value id is appended to the Offset2ID table; the bulk request is then sent —
one upsert per line — when non-empty. -/
def elasticExtend (nDim : Nat) (st : ElasticState) (values : List Document) :
    ElasticState :=
  let stored := values.map
    (fun v => { v with embedding := some (elasticMapEmbedding nDim v.embedding) })
  { index := stored.foldl (fun m d => upsertES m d.id d) st.index
    offset2ids := st.offset2ids ++ values.map (fun v => v.id) }

/-- `__len__` of the elastic collection (elastic/seqlike.py lines 25-30): the document
count of the remote index. -/
def elasticLen (st : ElasticState) : Nat := st.index.length

/-! ## The Redis backend: get/set/delete by id -/

/-- The redis backend configuration fields used by the getsetdel layer; `key_prefix`
is configured outside the provided sources, `n_dim` comes from `RedisConfig`. -/
structure RedisCfg where
  keyPrefix : String
  nDim : Nat
deriving DecidableEq, Repr

/-- The stored redis payload built by `_document_to_redis`: the mapped embedding, the
serialized document (`to_base64` is modelled as the document itself), and the optional
text field. Tag columns and tag indices are omitted (empty configuration). -/
structure RedisPayload where
  embedding : List Int
  blob : Document
  text : Option String
deriving DecidableEq, Repr

/-- The redis key space: an association list from keys to payloads, unique keys. -/
abbrev RedisStore := List (String × RedisPayload)

/-- Redis GET: the payload under the key, nil when absent (GET does not raise). -/
def redisGet (st : RedisStore) (key : String) : Option RedisPayload :=
  (st.find? (fun p => p.1 = key)).map (fun p => p.2)

/-- Redis EXISTS. -/
def redisExists (st : RedisStore) (key : String) : Bool :=
  st.any (fun p => p.1 = key)

/-- Redis DEL: removes the key when present; a missing key is a no-op, no raise. -/
def redisDelete (st : RedisStore) (key : String) : RedisStore :=
  st.filter (fun p => p.1 ≠ key)

/-- Redis SET/HSET: overwrites the key in place or appends it. -/
def redisSet (st : RedisStore) (key : String) (p : RedisPayload) : RedisStore :=
  if st.any (fun q => q.1 = key) then st.map (fun q => if q.1 = key then (key, p) else q)
  else st ++ [(key, p)]

/-- embedding of `_map_embedding` (redis/backend.py lines 144-154): a missing
embedding becomes a zero vector of `n_dim` entries; squeezing and the byte conversion
are out of scope. -/
def redisMapEmbedding (cfg : RedisCfg) : Option (List Int) → List Int
  | some e => e
  | none => List.replicate cfg.nDim 0

/-- embedding of `_document_to_redis` (redis/getsetdel.py lines 55-69) with empty
`columns` and `tag_indices` configuration: the mapped embedding, the serialized
document, and the text field when non-empty. -/
def documentToRedis (cfg : RedisCfg) (d : Document) : RedisPayload :=
  { embedding := redisMapEmbedding cfg d.embedding
    blob := d
    text := if d.text = "" then none else some d.text }

/-- embedding of `_getitem` (redis/getsetdel.py lines 12-25): the client GET is
issued, but the deserialization of its result and the `return` statement are commented
out in the source, so the method always falls through and returns `None`. The GET of a
missing key returns nil rather than raising, so the `except KeyError` clause never
fires. -/
def redisGetitem (cfg : RedisCfg) (st : RedisStore) (docId : String) : Option Document :=
  let _result := redisGet st (cfg.keyPrefix ++ docId)
  none

/-- embedding of `_get_doc_by_id` (redis/getsetdel.py lines 27-33): delegates to
`_getitem`. -/
def redisGetDocById (cfg : RedisCfg) (st : RedisStore) (id : String) : Option Document :=
  redisGetitem cfg st id

/-- embedding of `_del_doc_by_id` (redis/getsetdel.py lines 47-53) together with
`_doc_id_exists` (redis/backend.py lines 141-142, a bare `client.exists` on its
argument): the DEL command for `key_prefix + id` is issued only when
`EXISTS key_prefix + id` holds. EXISTS and DEL never raise, so the embedding is total;
the boolean component reports whether the DEL command was issued. -/
def redisDelDocById (cfg : RedisCfg) (st : RedisStore) (id : String) :
    RedisStore × Bool :=
  if redisExists st (cfg.keyPrefix ++ id) then
    (redisDelete st (cfg.keyPrefix ++ id), true)
  else (st, false)

/-- `_add(_id, payload)`: not under the provided sources. Modelled from the spec
(section 6) and the backend key scheme visible in `_getitem`/`_del_doc_by_id`: the
payload is stored under `key_prefix +` the given identifier. -/
def redisAdd (cfg : RedisCfg) (st : RedisStore) (id : String) (p : RedisPayload) :
    RedisStore :=
  redisSet st (cfg.keyPrefix ++ id) p

/-- embedding of `_set_doc_by_id` (redis/getsetdel.py lines 35-45): when the new
document carries a different id the old id is deleted first; the payload is then
stored through `_add(_id, payload)` — under the key of the OLD identifier `_id`, not
under `value.id`. -/
def redisSetDocById (cfg : RedisCfg) (st : RedisStore) (id : String) (value : Document) :
    RedisStore :=
  let st1 := if id ≠ value.id then (redisDelDocById cfg st id).1 else st
  redisAdd cfg st1 id (documentToRedis cfg value)

/-! ## Theorems -/

deriving instance DecidableEq for Except

/-- The 5-document collection of the end-to-end mask scenario. -/
def da5 : List Document := [mkDoc "d0", mkDoc "d1", mkDoc "d2", mkDoc "d3", mkDoc "d4"]

/-- A 2-document collection with ids `a` and `b`. -/
def da2 : List Document := [mkDoc "a", mkDoc "b"]

/-- C1: the claim states that a mask-indexed set of correct length assigns the values
positionally at the `True` positions, preserves the rest and keeps the length. The
source instead passes `index[0]` — the first boolean — to `_set_by_mask`
(setitem.py line 83), whose `len(mask)` then raises `TypeError`, so nothing is
assigned; evaluated here at the 5-document scenario of the spec with the mask
`[True, False, True, False, True]`, the set raises and leaves the collection as it
was. -/
theorem c1_mask_set_raises_typeerror :
    setitem da5
      (.pylist [.pybool true, .pybool false, .pybool true, .pybool false, .pybool true])
      (Val.vlist [.doc (mkDocT "d0" "x"), .doc (mkDocT "d2" "y"), .doc (mkDocT "d4" "z")])
      = .error (.typeError "object of type bool has no len", da5) := by
  simp [setitem, setitemSeq, setByMask, pyLen, Ix.typename]

/-- C4: the claim states that a mask of mismatched length fails with `IndexError`
naming both lengths. Because `__setitem__` passes `index[0]` (a single boolean) to
`_set_by_mask`, `len(mask)` raises `TypeError` instead — the length comparison that
would raise the claimed `IndexError` is never reached; evaluated here at a length-1
mask against a 2-document collection. -/
theorem c4_mask_mismatch_raises_typeerror :
    setitem da2 (.pylist [.pybool true]) (Val.vlist [.doc (mkDoc "c")])
      = .error (.typeError "object of type bool has no len", da2) := by
  simp [setitem, setitemSeq, setByMask, pyLen, Ix.typename]

/-- C2: the claim states that `da[0, "b"] = x`, with `"b"` a known id, is interpreted
as dual-id selection. The integer-first branch of `_set_by_pair` (setitem.py lines
123-139) has no known-id check — only the string-first branch does — so the set
instead treats `"b"` as an attribute name and raises `ValueError`; evaluated here at
the exact scenario of the spec (ids `a`, `b`; offset 0 holds `a`). -/
theorem c2_pair_int_known_id_raises_valueerror :
    setitem da2 (.pytuple [.pyint 0, .pystr "b"]) (Val.doc (mkDoc "z"))
      = .error (.valueError "b must be an attribute or list of attributes", da2) := by
  simp [setitem]
  decide

/-- C3 counterexample: a non-empty list whose first element is neither a boolean, an
integer nor a string (here a float) matches no branch of the sequence body and no
final else exists: the call returns successfully and changes nothing, where the claim
requires an `IndexError` naming the observed type. -/
theorem c3_float_list_silently_ignored :
    setitem da2 (.pylist [.pyfloat 1]) (Val.doc (mkDoc "z")) = .ok da2 := by
  simp [setitem, setitemSeq]

/-- The top-level shapes that reach the final `else` of `__setitem__`: booleans,
floats and `None`. -/
def topLevelUnsupported : Ix → Bool
  | .pybool _ => true
  | .pyfloat _ => true
  | .pynone => true
  | _ => false

/-- The first elements of a sequence index that match no branch of the sequence body
of `__setitem__` (not a boolean, an integer or a string). -/
def seqHeadSilent : Ix → Bool
  | .pybool _ => false
  | .pyint _ => false
  | .pystr _ => false
  | _ => true

/-- C3 amended: the dispatch fails with `IndexError` naming the observed type for
every top-level shape matching none of the classification rules (boolean, float,
`None`), leaving the collection unchanged; but the classification is not total on
sequences — a non-empty sequence whose first element is neither a boolean, an integer
nor a string (and which is not a 2-tuple) matches no branch and returns silently with
the collection unchanged, rather than failing. -/
theorem c3_classification_amended (da : List Document) (v : Val) (ix hd : Ix)
    (tl : List Ix) (htop : topLevelUnsupported ix = true)
    (hhd : seqHeadSilent hd = true) :
    setitem da ix v = .error (.indexError ("Unsupported index type " ++ ix.typename), da)
    ∧ setitem da (.pylist (hd :: tl)) v = .ok da := by
  constructor
  · cases ix <;> simp_all [topLevelUnsupported, setitem, Ix.typename]
  · cases hd <;> simp_all [seqHeadSilent, setitem, setitemSeq]

/-- Witness for the amended C3 at `None` and at the list `[2.0]`. -/
theorem c3_classification_amended_witness :
    setitem [] Ix.pynone Val.vnone
      = .error (.indexError ("Unsupported index type " ++ Ix.pynone.typename), [])
    ∧ setitem [] (.pylist [.pyfloat 2]) Val.vnone = .ok [] :=
  c3_classification_amended [] Val.vnone .pynone (.pyfloat 2) [] (by decide) (by decide)

/-- A fold threaded through `Res` stays at the first raised exception. -/
theorem foldl_res_error {α : Type} (f : List Document → α → Res) (xs : List α)
    (e : PyErr × List Document) :
    xs.foldl (fun r x => r.bind (fun s => f s x)) (Except.error e) = .error e := by
  induction xs <;> simp_all [Except.bind]

/-- The broadcast loop is the fold of the resolver with the same value. -/
theorem setEachB_eq_foldl (xs : List Ix) (da : List Document) (v : Val) :
    setEachB da xs v
      = xs.foldl (fun r si => r.bind (fun s => setitem s si v)) (Except.ok da) := by
  induction xs generalizing da with
  | nil => simp [setEachB]
  | cons x tl ih =>
      rw [setEachB]
      cases h : setitem da x v with
      | error e =>
          simp only [List.foldl_cons, Except.bind, h]
          exact (foldl_res_error (fun s si => setitem s si v) tl e).symm
      | ok da2 =>
          simp only [List.foldl_cons, Except.bind, h]
          exact ih da2

/-- The zip loop is the fold of the resolver over the element-wise pairs. -/
theorem setZip_eq_foldl (xs : List Ix) (vs : List Val) (da : List Document) :
    setZip da xs vs
      = (xs.zip vs).foldl (fun r p => r.bind (fun s => setitem s p.1 p.2))
          (Except.ok da) := by
  induction xs generalizing vs da with
  | nil => simp [setZip]
  | cons x tl ih =>
      cases vs with
      | nil => simp [setZip]
      | cons v1 vrest =>
          rw [setZip]
          cases h : setitem da x v1 with
          | error e =>
              simp only [List.zip_cons_cons, List.foldl_cons, Except.bind, h]
              exact (foldl_res_error (fun s (p : Ix × Val) => setitem s p.1 p.2)
                (tl.zip vrest) e).symm
          | ok da2 =>
              simp only [List.zip_cons_cons, List.foldl_cons, Except.bind, h]
              exact ih vrest da2

/-- Offsets and identifiers: the element forms of classification rule 7. -/
def isOffsetOrId : Ix → Bool
  | .pyint _ => true
  | .pystr _ => true
  | _ => false

/-- C7: a set through a non-empty sequence of offsets/ids applies the resolver
recursively per element: a value that is a string or not a sequence (the broadcast
guard of setitem.py line 87) is assigned unchanged to every selected element in
order; a sequence value is zipped element-wise with the index, one (index, value)
pair per position, both through the same `setitem` entry point. -/
theorem c7_sequence_set_broadcast_or_zip (da : List Document) (x : Ix) (xs : List Ix)
    (v : Val) (hall : (x :: xs).all isOffsetOrId = true) :
    (broadcastGuard v = true →
      setitem da (.pylist (x :: xs)) v
        = (x :: xs).foldl (fun r si => r.bind (fun s => setitem s si v)) (Except.ok da))
    ∧ (broadcastGuard v = false →
      ∃ vs, v = Val.vlist vs ∧
        setitem da (.pylist (x :: xs)) v
          = ((x :: xs).zip vs).foldl (fun r p => r.bind (fun s => setitem s p.1 p.2))
              (Except.ok da)) := by
  have hx : isOffsetOrId x = true := by
    have := List.all_eq_true.mp hall x (by simp)
    exact this
  constructor
  · intro hguard
    have hv : ∀ vs, v ≠ Val.vlist vs := by
      intro vs hv
      subst hv
      simp [broadcastGuard] at hguard
    rw [setitem]
    cases x <;> simp [isOffsetOrId] at hx <;>
      cases v <;> simp_all [broadcastGuard, setitemSeq, setEachB_eq_foldl]
  · intro hguard
    cases v <;> simp [broadcastGuard] at hguard
    case vlist vs =>
      refine ⟨vs, rfl, ?_⟩
      rw [setitem]
      cases x <;> simp [isOffsetOrId] at hx <;> simp [setitemSeq, setZip_eq_foldl]

/-- Witness for C7 at the singleton offset index `[0]` and a non-sequence value. -/
theorem c7_sequence_set_broadcast_or_zip_witness :
    (broadcastGuard Val.vnone = true →
      setitem [] (.pylist [.pyint 0]) Val.vnone
        = [Ix.pyint 0].foldl (fun r si => r.bind (fun s => setitem s si Val.vnone))
            (Except.ok []))
    ∧ (broadcastGuard Val.vnone = false →
      ∃ vs, Val.vnone = Val.vlist vs ∧
        setitem [] (.pylist [.pyint 0]) Val.vnone
          = ([Ix.pyint 0].zip vs).foldl (fun r p => r.bind (fun s => setitem s p.1 p.2))
              (Except.ok [])) :=
  c7_sequence_set_broadcast_or_zip [] (.pyint 0) [] Val.vnone (by decide)

/-- The numeric scalar element forms of an ndarray index. -/
def numericScalar : Ix → Bool
  | .pyint _ => true
  | .pyfloat _ => true
  | _ => false

/-- C8: a numeric ndarray index is squeezed; with exactly one remaining dimension it
behaves identically to the equivalent plain list index (the flat data, resolved by
the sequence rules through the same entry point); with more than one remaining
dimension it is rejected with `IndexError` naming the dimension count and the
collection is unchanged. -/
theorem c8_ndarray_index (da : List Document) (v : Val) (shape : List Nat)
    (data : List Ix) (_hnum : data.all numericScalar = true)
    (_hlen : data.length = shape.prod) :
    ((shape.filter (fun d => d ≠ 1)).length = 1 →
      setitem da (.ndarray shape data) v = setitem da (.pylist data) v)
    ∧ (1 < (shape.filter (fun d => d ≠ 1)).length →
      setitem da (.ndarray shape data) v
        = .error (.indexError
            ("When using np.ndarray as index its ndim must be 1 but receiving ndim "
              ++ toString (shape.filter (fun d => d ≠ 1)).length), da)) := by
  constructor
  · intro h1
    simp only [ne_eq, decide_not] at h1
    conv_lhs => rw [setitem]
    simp [h1]
  · intro h2
    have hne : (shape.filter (fun d => d ≠ 1)).length ≠ 1 := by omega
    simp only [ne_eq, decide_not] at hne
    conv_lhs => rw [setitem]
    simp [hne]

/-- Witness for C8 at the shape (1, 2) array holding the offsets 0 and 1. -/
theorem c8_ndarray_index_witness :
    (([1, 2].filter (fun d => d ≠ 1)).length = 1 →
      setitem da2 (.ndarray [1, 2] [.pyint 0, .pyint 1]) (Val.doc (mkDoc "z"))
        = setitem da2 (.pylist [.pyint 0, .pyint 1]) (Val.doc (mkDoc "z")))
    ∧ (1 < (([1, 2].filter (fun d => d ≠ 1))).length →
      setitem da2 (.ndarray [1, 2] [.pyint 0, .pyint 1]) (Val.doc (mkDoc "z"))
        = .error (.indexError
            ("When using np.ndarray as index its ndim must be 1 but receiving ndim "
              ++ toString (([1, 2].filter (fun d => d ≠ 1))).length), da2)) :=
  c8_ndarray_index da2 (Val.doc (mkDoc "z")) [1, 2] [.pyint 0, .pyint 1]
    (by decide) (by decide)

/-- C9: a paired attribute-set whose primary selector resolves to an empty selection
returns without error and without modifying the collection, whatever the attribute
names and the value shape: the attribute/value normalizations are pure, and
`_set_docs_attributes` returns before its write loop when the selection is empty. -/
theorem c9_empty_selection_attr_set_is_noop (da : List Document) (index attrsIx : Ix)
    (v : Val) (hempty : getDocs da index = .ok []) :
    setDocsAttributes da index attrsIx v = .ok da := by
  unfold setDocsAttributes
  rw [hempty]

/-- Witness for C9 at an empty slice selection with a mismatched value shape. -/
theorem c9_empty_selection_attr_set_is_noop_witness :
    setDocsAttributes [mkDoc "w"] (.pyslice (some 0) (some 0) none) (.pystr "text")
      (Val.vlist [.vstr "x", .vstr "y"]) = .ok [mkDoc "w"] :=
  c9_empty_selection_attr_set_is_noop [mkDoc "w"] (.pyslice (some 0) (some 0) none)
    (.pystr "text") (Val.vlist [.vstr "x", .vstr "y"]) (by decide)

/-- C5: the claim states that after `set_by_id(id, d)` every backend returns a
document equal to `d` from `get_by_id(id)` and that, when `d.id != id`, the old id no
longer exists. On the Redis backend both parts fail: `_getitem` returns `None` for
every id (its deserialization and `return` are commented out in the source), and
`_set_doc_by_id` stores the payload back under the OLD id after deleting it, so the
old id exists again; evaluated at `set_by_id("a", doc "a")` followed by
`get_by_id("a")` (which yields `None`, not the document), and at a subsequent
`set_by_id("a", doc "b")` (after which the key of the old id `"a"` still exists). -/
theorem c5_redis_set_get_by_id_bug :
    redisGetDocById ⟨"doc:", 2⟩ (redisSetDocById ⟨"doc:", 2⟩ [] "a" (mkDoc "a")) "a" = none
    ∧ redisExists
        (redisSetDocById ⟨"doc:", 2⟩ (redisSetDocById ⟨"doc:", 2⟩ [] "a" (mkDoc "a"))
          "a" (mkDoc "b"))
        ("doc:" ++ "a") = true := by
  decide

/-- C10: deleting an identifier that does not exist in the redis store is a no-op:
the `EXISTS` guard is false, so the `DEL` command is not issued (the boolean
component), the store is unchanged, and nothing is raised (the embedding of
`_del_doc_by_id` is a total function because the redis EXISTS and DEL commands never
raise). The contrapositive of this statement is exactly "the DEL command is issued
only when the key exists". -/
theorem c10_redis_del_missing_id_noop (cfg : RedisCfg) (st : RedisStore) (id : String)
    (hmiss : redisExists st (cfg.keyPrefix ++ id) = false) :
    redisDelDocById cfg st id = (st, false) := by
  unfold redisDelDocById
  simp [hmiss]

/-- Witness for C10 at the empty store. -/
theorem c10_redis_del_missing_id_noop_witness :
    redisDelDocById ⟨"p", 1⟩ [] "a" = ([], false) :=
  c10_redis_del_missing_id_noop ⟨"p", 1⟩ [] "a" (by decide)

/-- C6 counterexample: extending a collection that already holds the id `a` with one
document (trivially pairwise-distinct) carrying the same id `a` appends a duplicate to
the Offset2ID table while the elastic `index` bulk operation overwrites in place: the
table now holds a duplicate and its length 2 differs from the collection size 1. -/
theorem c6_extend_duplicate_id_breaks_table :
    ¬ ((elasticExtend 2 (elasticExtend 2 ⟨[], []⟩ [mkDoc "a"]) [mkDocT "a" "v2"]).offset2ids.Nodup
       ∧ (elasticExtend 2 (elasticExtend 2 ⟨[], []⟩ [mkDoc "a"]) [mkDocT "a" "v2"]).offset2ids.length
         = elasticLen (elasticExtend 2 (elasticExtend 2 ⟨[], []⟩ [mkDoc "a"]) [mkDocT "a" "v2"])) := by
  decide

/-- An upsert of a key absent from the map appends it. -/
theorem upsertES_fresh (m : List (String × Document)) (k : String) (d : Document)
    (h : k ∉ m.map Prod.fst) : upsertES m k d = m ++ [(k, d)] := by
  have hany : m.any (fun p => p.1 = k) = false := by
    rw [List.any_eq_false]
    intro p hp hpk
    exact h (List.mem_map.mpr ⟨p, hp, by simpa using hpk⟩)
  unfold upsertES
  simp [hany]

/-- Folding fresh, pairwise-distinct upserts appends the keys in order. -/
theorem foldl_upsert_fresh (docs : List Document) (m : List (String × Document))
    (hnd : (docs.map Document.id).Nodup)
    (hfresh : ∀ d ∈ docs, d.id ∉ m.map Prod.fst) :
    (docs.foldl (fun m2 d => upsertES m2 d.id d) m).map Prod.fst
      = m.map Prod.fst ++ docs.map Document.id := by
  induction docs generalizing m with
  | nil => simp
  | cons d tl ih =>
      simp only [List.foldl_cons]
      rw [upsertES_fresh m d.id d (hfresh d (by simp))]
      have h1 : (tl.map Document.id).Nodup := by
        simpa using hnd.of_cons
      have hdhead : d.id ∉ tl.map Document.id := by
        have := hnd
        simp only [List.map_cons, List.nodup_cons] at this
        exact this.1
      have h2 : ∀ x ∈ tl, x.id ∉ (m ++ [(d.id, d)]).map Prod.fst := by
        intro x hx
        simp only [List.map_append, List.mem_append]
        intro hmem
        rcases hmem with hm | hsing
        · exact hfresh x (List.mem_cons_of_mem d hx) hm
        · have hxid : x.id = d.id := by simpa using hsing
          exact hdhead (hxid ▸ List.mem_map_of_mem Document.id hx)
      rw [ih (m ++ [(d.id, d)]) h1 h2]
      simp

/-- C6 amended: `extend(docs)` always appends the document identifiers to the
Offset2ID table in input order; and provided the identifiers are pairwise distinct
AND absent from the collection being extended (whose table mirrors its store keys
with no duplicates), the resulting table length equals the collection size and the
table holds no duplicate identifiers. Without the freshness condition the
counterexample above applies. -/
theorem c6_extend_fresh_ids (nDim : Nat) (st : ElasticState) (values : List Document)
    (hinv : st.index.map Prod.fst = st.offset2ids)
    (hnodup : st.offset2ids.Nodup)
    (hdist : (values.map Document.id).Nodup)
    (hfresh : ∀ v ∈ values, v.id ∉ st.offset2ids) :
    (elasticExtend nDim st values).offset2ids
      = st.offset2ids ++ values.map Document.id
    ∧ (elasticExtend nDim st values).offset2ids.length
      = elasticLen (elasticExtend nDim st values)
    ∧ (elasticExtend nDim st values).offset2ids.Nodup := by
  have hstored : (values.map
      (fun v => ({ v with embedding := some (elasticMapEmbedding nDim v.embedding) } : Document))).map
        Document.id = values.map Document.id := by
    rw [List.map_map]
    simp [Function.comp]
  have hkeys : ((elasticExtend nDim st values).index).map Prod.fst
      = st.offset2ids ++ values.map Document.id := by
    unfold elasticExtend
    rw [foldl_upsert_fresh _ _ (by rw [hstored]; exact hdist)
      (by intro d hd
          rcases List.mem_map.mp hd with ⟨v, hv, rfl⟩
          rw [hinv]
          exact hfresh v hv)]
    rw [hstored, hinv]
  refine ⟨rfl, ?_, ?_⟩
  · have hlen : (elasticExtend nDim st values).index.length
        = ((elasticExtend nDim st values).index.map Prod.fst).length :=
      (List.length_map _ _).symm
    show (st.offset2ids ++ values.map (fun v => v.id)).length
      = elasticLen (elasticExtend nDim st values)
    rw [elasticLen, hlen, hkeys]
  · show (st.offset2ids ++ values.map (fun v => v.id)).Nodup
    refine List.Nodup.append hnodup hdist ?_
    intro a ha hb
    rcases List.mem_map.mp hb with ⟨v, hv, rfl⟩
    exact hfresh v hv ha

/-- Witness for the amended C6: a one-document collection extended with one fresh
id. -/
theorem c6_extend_fresh_ids_witness :
    (elasticExtend 2 ⟨[("a", mkDoc "a")], ["a"]⟩ [mkDoc "b"]).offset2ids
      = ["a"] ++ [mkDoc "b"].map Document.id
    ∧ (elasticExtend 2 ⟨[("a", mkDoc "a")], ["a"]⟩ [mkDoc "b"]).offset2ids.length
      = elasticLen (elasticExtend 2 ⟨[("a", mkDoc "a")], ["a"]⟩ [mkDoc "b"])
    ∧ (elasticExtend 2 ⟨[("a", mkDoc "a")], ["a"]⟩ [mkDoc "b"]).offset2ids.Nodup :=
  c6_extend_fresh_ids 2 ⟨[("a", mkDoc "a")], ["a"]⟩ [mkDoc "b"]
    (by decide) (by decide) (by decide) (by decide)
